/-
Verification of the UpNext metadata federation engine
(app/services/external_api.py) against its natural-language specification.

The Python source is shallowly embedded: each adapter's normalization logic
is a pure Lean function from an (already fetched) upstream payload to the
canonical record, and the facade's routing logic is a pure function to a
dispatch decision.  Network responses are passed in as explicit parameters
(an `Option` payload, `none` meaning request failure / not found), which is
exactly the shape the Python code sees after its `_request` helpers.
Python truthiness, `or` chains, `str.strip`, `str.replace`, slicing and
`int()` parsing are modelled by the `py*` helpers below.
-/
import Mathlib

set_option maxHeartbeats 1000000
set_option maxRecDepth 100000

/-! ## Python semantics helpers -/

/-- Python `a or dflt` where the result must be a string: an absent/null or
empty string falls through to the default. -/
def pyStrOr (a : Option String) (dflt : String) : String :=
  match a with
  | some s => if s = "" then dflt else s
  | none => dflt

/-- Python `a or b` on two optional strings: `a` wins iff it is truthy
(present and non-empty). -/
def pyOrOptStr (a b : Option String) : Option String :=
  match a with
  | some s => if s = "" then b else some s
  | none => b

/-- Python truthiness of an optional string (`None` and `""` are falsy). -/
def pyTruthyStr : Option String → Bool
  | some s => s != ""
  | none => false

/-- Python truthiness of an optional integer (`None` and `0` are falsy). -/
def pyTruthyOptInt : Option Int → Bool
  | some n => n != 0
  | none => false

/-- Python `a or dflt` on an optional integer (`None` and `0` fall through). -/
def pyIntOr (a : Option Int) (dflt : Int) : Int :=
  match a with
  | some n => if n = 0 then dflt else n
  | none => dflt

/-- The ASCII whitespace characters stripped by Python `str.strip()`. -/
def isPySpace (c : Char) : Bool :=
  c = ' ' || c = '\t' || c = '\n' || c = '\r' || c = '\x0b' || c = '\x0c'

/-- Python `str.strip()` on a character list. -/
def pyStripChars (cs : List Char) : List Char :=
  ((cs.dropWhile isPySpace).reverse.dropWhile isPySpace).reverse

/-- Python `str.strip()` (restricted to ASCII whitespace). -/
def pyStrip (s : String) : String := String.mk (pyStripChars s.data)

/-- Python slicing `s[:n]`: the first `n` characters. -/
def pySlice (s : String) (n : Nat) : String := String.mk (s.data.take n)

/-- Worker for `pyReplace`: scans left to right, replacing each
non-overlapping occurrence of `pat`.  `fuel` is the remaining input length,
enough because every step consumes at least one character. -/
def pyReplaceAux (pat rep : List Char) : Nat → List Char → List Char
  | 0, cs => cs
  | _ + 1, [] => []
  | fuel + 1, c :: rest =>
    if pat ≠ [] ∧ (c :: rest).take pat.length = pat then
      rep ++ pyReplaceAux pat rep fuel ((c :: rest).drop pat.length)
    else
      c :: pyReplaceAux pat rep fuel rest

/-- Python `s.replace(pat, rep)`: replace all non-overlapping occurrences,
scanning left to right. -/
def pyReplace (s pat rep : String) : String :=
  String.mk (pyReplaceAux pat.data rep.data s.data.length s.data)

/-- Digit run for Python `int()`: after the first digit, a single underscore
may separate digits; anything else is a parse error. -/
def pyDigitsAux : List Char → Nat → Option Nat
  | [], acc => some acc
  | '_' :: c :: rest, acc =>
    if c.isDigit then pyDigitsAux rest (acc * 10 + (c.toNat - 48)) else none
  | ['_'], _ => none
  | c :: rest, acc =>
    if c.isDigit then pyDigitsAux rest (acc * 10 + (c.toNat - 48)) else none

/-- Digit run for Python `int()`: must start with a digit. -/
def pyDigits : List Char → Option Nat
  | [] => none
  | c :: rest => if c.isDigit then pyDigitsAux rest (c.toNat - 48) else none

/-- Python `int(s)` for ASCII strings: strip whitespace, optional sign, then
digits (with single underscores allowed between digits); `none` models the
`ValueError` path. -/
def pythonParseInt (s : String) : Option Int :=
  match pyStripChars s.data with
  | '+' :: rest => (pyDigits rest).map (fun n => (n : Int))
  | '-' :: rest => (pyDigits rest).map (fun n => -(n : Int))
  | cs => (pyDigits cs).map (fun n => (n : Int))

/-- The truncation pattern `desc[:200] + "..." if len(desc) > 200 else desc`
shared verbatim by the AniList, TMDB, MangaDex and ComicVine search
normalizers. -/
def previewWithEllipsis (desc : String) : String :=
  if desc.length > 200 then pySlice desc 200 ++ "..." else desc

/-! ## Canonical result schema

The Python adapters return plain dicts; we project them onto fixed record
types carrying the fields the claims are about.  Fields no claim mentions
(cover URLs, years, genre lists, ...) are omitted from the projection;
dict keys that may be absent or JSON-null are `Option` fields (`none`
covers both, matching `dict.get(k)` which returns `None` in either case).
`title` is `Option String` because the TVMaze adapter can emit a null
title; adapters that always produce a string emit `some`. -/

structure SearchResult where
  id : String
  source : String
  title : Option String
  originalTitle : Option String
  descriptionPreview : String
  deriving DecidableEq, Repr

structure SeasonEntry where
  number : Option Int
  episodes : Option Int
  duration : Option Int
  releaseDate : Option String
  deriving DecidableEq, Repr

structure DetailRecord where
  id : String
  source : String
  title : Option String
  alternateTitles : List String
  episodes : Option Int
  volumes : Option Int
  seasons : List SeasonEntry
  deriving DecidableEq, Repr

/-! ## AniListClient (external_api.py lines 41-288)

Payload structures mirror the fields the Python normalizers read from the
GraphQL response; nested `{nodes: [{name}]}` wrappers the code flattens,
and fields no claim mentions (cover image, dates, studios, staff, genres,
tags), are omitted from the projection. -/

structure AniListTitle where
  english : Option String
  romaji : Option String
  native : Option String
  deriving DecidableEq, Repr

structure AniListSearchMedia where
  id : Int
  title : AniListTitle
  description : Option String
  episodes : Option Int
  chapters : Option Int
  volumes : Option Int
  deriving DecidableEq, Repr

structure AniListDetailMedia where
  id : Int
  title : AniListTitle
  description : Option String
  synonyms : List String
  episodes : Option Int
  chapters : Option Int
  volumes : Option Int
  deriving DecidableEq, Repr

namespace AniListClient

/-- `titles.get("english") or titles.get("romaji") or titles.get("native")
or "Unknown"` — the title fallback chain used by both `search` and
`get_details`. -/
def pickTitle (t : AniListTitle) : String :=
  pyStrOr t.english (pyStrOr t.romaji (pyStrOr t.native "Unknown"))

/-- `"ANIME" if media_type == "Anime" else "MANGA"` (line 181). -/
def anilistTypeOf (media_type : Option String) : String :=
  if media_type = some "Anime" then "ANIME" else "MANGA"

/-- Normalization of one search hit (lines 195-225, claim-relevant
fields). -/
def searchResultOf (item : AniListSearchMedia) : SearchResult :=
  { id := toString item.id
    source := "anilist"
    title := some (pickTitle item.title)
    originalTitle := item.title.native
    descriptionPreview := previewWithEllipsis (pyStrOr item.description "") }

/-- `search` normalization over the fetched `Page.media` list. -/
def searchNormalize (pageMedia : List AniListSearchMedia) : List SearchResult :=
  pageMedia.map searchResultOf

/-- Normalization of a details payload (lines 240-288): the alternate-title
list keeps `romaji` only when truthy and different from the primary title,
keeps `native` whenever truthy, then appends the first 5 synonyms. -/
def detailRecordOf (item : AniListDetailMedia) : DetailRecord :=
  let title := pickTitle item.title
  let altRomaji : List String :=
    match item.title.romaji with
    | some r => if r ≠ "" ∧ r ≠ title then [r] else []
    | none => []
  let altNative : List String :=
    match item.title.native with
    | some n => if n ≠ "" then [n] else []
    | none => []
  { id := toString item.id
    source := "anilist"
    title := some title
    alternateTitles := altRomaji ++ altNative ++ item.synonyms.take 5
    episodes := item.episodes
    volumes := item.volumes
    seasons := [] }

/-- `get_details` (lines 229-288): parse the external id with `int()`
(returning `None` on `ValueError`), then issue the GraphQL request;
`respond` is the fetched `Media` payload, `none` covering request failure,
GraphQL errors, or a missing `Media` key. -/
def get_details (external_id : String)
    (respond : Int → Option AniListDetailMedia) : Option DetailRecord :=
  match pythonParseInt external_id with
  | none => none
  | some n =>
    match respond n with
    | none => none
    | some item => some (detailRecordOf item)

/-- The list of AniList ids `get_details external_id` issues a network
request for (empty when the id fails to parse, since the code returns
before `_request`). -/
def detailRequests (external_id : String) : List Int :=
  match pythonParseInt external_id with
  | none => []
  | some n => [n]

end AniListClient

/-! ## TMDBClient (external_api.py lines 291-480) -/

structure TMDBSearchItem where
  id : Int
  title : Option String
  name : Option String
  originalTitle : Option String
  originalName : Option String
  overview : Option String
  deriving DecidableEq, Repr

structure TMDBSeasonData where
  seasonNumber : Option Int
  episodeCount : Option Int
  airDate : Option String
  deriving DecidableEq, Repr

structure TMDBDetailData where
  id : Int
  title : Option String
  name : Option String
  originalTitle : Option String
  originalName : Option String
  runtime : Option Int
  episodeRunTime : List Int
  lastEpRuntime : Option Int
  nextEpRuntime : Option Int
  numberOfEpisodes : Option Int
  numberOfSeasons : Option Int
  seasons : List TMDBSeasonData
  deriving DecidableEq, Repr

namespace TMDBClient

/-- `"/search/movie" if media_type == "Movie" else "/search/tv"`
(line 337). -/
def endpointOf (media_type : Option String) : String :=
  if media_type = some "Movie" then "/search/movie" else "/search/tv"

/-- Normalization of one search hit (lines 344-369, claim-relevant
fields): movies use `title`, TV uses `name`, with `"Unknown"` as the final
fallback. -/
def searchResultOf (item : TMDBSearchItem) : SearchResult :=
  let title := pyStrOr item.title (pyStrOr item.name "Unknown")
  let orig := pyOrOptStr item.originalTitle item.originalName
  { id := toString item.id
    source := "tmdb"
    title := some title
    originalTitle := if orig = some title then none else orig
    descriptionPreview := previewWithEllipsis (pyStrOr item.overview "") }

/-- `search` normalization: `data.get("results", [])[:10]` then per-item
normalization. -/
def searchNormalize (resultsField : List TMDBSearchItem) : List SearchResult :=
  (resultsField.take 10).map searchResultOf

/-- Runtime fallback chain of `get_details` (lines 417-434): `runtime`,
else the floor-average of `episode_run_time`, else the last / next episode
runtime — each step taken only while the current value is falsy. -/
def runtimeOf (d : TMDBDetailData) : Option Int :=
  let r0 := d.runtime
  let r1 :=
    if pyTruthyOptInt r0 then r0
    else if d.episodeRunTime.isEmpty then r0
    else some (Int.fdiv d.episodeRunTime.sum (d.episodeRunTime.length : Int))
  let r2 :=
    if pyTruthyOptInt r1 then r1
    else if pyTruthyOptInt d.lastEpRuntime then d.lastEpRuntime else r1
  if pyTruthyOptInt r2 then r2
  else if pyTruthyOptInt d.nextEpRuntime then d.nextEpRuntime else r2

/-- Season list construction of `get_details` (lines 440-463): for Series,
either the per-season data (skipping season number 0) or generated
placeholders `1..number_of_seasons`. -/
def seasonsListOf (d : TMDBDetailData) (media_type : String)
    (runtime : Option Int) : List SeasonEntry :=
  if media_type = "Series" then
    if d.seasons ≠ [] then
      (d.seasons.filter (fun s => s.seasonNumber ≠ some 0)).map (fun s =>
        { number := s.seasonNumber
          episodes := some (pyIntOr s.episodeCount 0)
          duration := some (pyIntOr runtime 0)
          releaseDate := s.airDate })
    else
      match d.numberOfSeasons with
      | some k =>
        if k ≠ 0 ∧ 0 < k then
          (List.range k.toNat).map (fun i =>
            { number := some ((i : Int) + 1)
              episodes := some 0
              duration := some (pyIntOr runtime 0)
              releaseDate := none })
        else []
      | none => []
  else []

/-- Normalization of a details payload (lines 382-480, claim-relevant
fields). -/
def detailRecordOf (d : TMDBDetailData) (media_type : String) : DetailRecord :=
  let title := pyStrOr d.title (pyStrOr d.name "Unknown")
  let orig := pyOrOptStr d.originalTitle d.originalName
  let alt : List String :=
    match orig with
    | some s => if s ≠ "" ∧ s ≠ title then [s] else []
    | none => []
  { id := toString d.id
    source := "tmdb"
    title := some title
    alternateTitles := alt
    episodes := d.numberOfEpisodes
    volumes := d.numberOfSeasons
    seasons := seasonsListOf d media_type (runtimeOf d) }

/-- `get_details` (lines 373-480): `_request` returns `None` when the API
key is falsy (line 307) or the request fails (lines 325-327); `get_details`
then returns `None`; otherwise the payload is normalized. -/
def get_details (apiKey : Option String) (media_type : String)
    (respond : Option TMDBDetailData) : Option DetailRecord :=
  if pyTruthyStr apiKey = false then none
  else
    match respond with
    | none => none
    | some d => some (detailRecordOf d media_type)

end TMDBClient

/-! ## TVMazeAPI (external_api.py lines 628-735) -/

structure TVMazeShow where
  id : Option Int
  name : Option String
  summary : Option String
  genres : List String
  deriving DecidableEq, Repr

structure TVMazeSeason where
  number : Option Int
  episodeOrder : Option Int
  premiereDate : Option String
  deriving DecidableEq, Repr

structure TVMazeEpisode where
  season : Option Int
  deriving DecidableEq, Repr

structure TVMazeShowDetail where
  id : Int
  name : Option String
  averageRuntime : Option Int
  seasons : List TVMazeSeason
  deriving DecidableEq, Repr

namespace TVMazeAPI

/-- The tag cleanup of the search summary (line 660): six chained
`str.replace` calls removing the literal `<p> </p> <b> </b> <i> </i>`
tags, applied to `show.get("summary") or ""`. -/
def cleanSummary (summary : Option String) : String :=
  pyReplace (pyReplace (pyReplace (pyReplace (pyReplace (pyReplace
    (pyStrOr summary "") "<p>" "") "</p>" "") "<b>" "") "</b>" "")
    "<i>" "") "</i>" ""

/-- Normalization of one search hit (lines 654-662, claim-relevant fields):
the title is `show.get("name")` with no fallback, and the preview is the
cleaned summary sliced to 200 characters with no ellipsis. -/
def searchResultOf (sh : TVMazeShow) : SearchResult :=
  { id := match sh.id with | some n => toString n | none => "None"
    source := "tvmaze"
    title := sh.name
    originalTitle := none
    descriptionPreview := pySlice (cleanSummary sh.summary) 200 }

/-- The search-response loop (lines 645-663): each entry's `show` object
(`none` models a missing/empty one, skipped by `if not show: continue`). -/
def searchNormalize (entries : List (Option TVMazeShow)) : List SearchResult :=
  entries.filterMap (fun e => e.map searchResultOf)

/-- `search` (lines 633-663): only `media_type == "Series"` queries the
upstream; `entries` is the fetched response. -/
def search (media_type : String) (entries : List (Option TVMazeShow)) :
    List SearchResult :=
  if media_type ≠ "Series" then [] else searchNormalize entries

/-- Lines 684-688: manual episode counting is needed iff some embedded
season has `episodeOrder` null. -/
def needsManualCount (sh : TVMazeShowDetail) : Bool :=
  sh.seasons.any (fun s => s.episodeOrder == none)

/-- Lookup in the `episode_counts` dict built on lines 690-699: episodes
are grouped by season number, skipping falsy season numbers (null or 0),
so a key is present iff it is a non-zero number with at least one
episode. -/
def episodeCountFor (eps : List TVMazeEpisode) (num : Option Int) : Option Int :=
  match num with
  | none => none
  | some k =>
    if k = 0 then none
    else
      let c := (eps.filter (fun e => e.season == some k)).length
      if c = 0 then none else some (c : Int)

/-- Per-season episode count (lines 704-709): the explicit `episodeOrder`
when present, else the manual count. -/
def seasonEpisodes (counts : List TVMazeEpisode) (s : TVMazeSeason) : Option Int :=
  match s.episodeOrder with
  | some n => some n
  | none => episodeCountFor counts s.number

/-- `get_details` (lines 665-735): `showResp` is the `?embed=seasons`
response (`none` = request failure), `epsResp` the full episode listing
fetched only on the manual-count path (`none` = that fetch failed, leaving
`episode_counts` empty). -/
def get_details (showResp : Option TVMazeShowDetail)
    (epsResp : Option (List TVMazeEpisode)) : Option DetailRecord :=
  match showResp with
  | none => none
  | some sh =>
    let counts : List TVMazeEpisode :=
      if needsManualCount sh then epsResp.getD [] else []
    let seasonsData : List SeasonEntry := sh.seasons.map (fun s =>
      { number := s.number
        episodes := seasonEpisodes counts s
        duration := sh.averageRuntime
        releaseDate := s.premiereDate })
    let totalEpisodes : Int := sh.seasons.foldl (fun acc s =>
      match seasonEpisodes counts s with
      | some n => if n ≠ 0 then acc + n else acc
      | none => acc) 0
    some
      { id := toString sh.id
        source := "tvmaze"
        title := sh.name
        alternateTitles := []
        episodes := if 0 < totalEpisodes then some totalEpisodes else none
        volumes := if seasonsData ≠ [] then some (seasonsData.length : Int) else none
        seasons := seasonsData }

end TVMazeAPI

/-! ## ComicVineClient credential gate (external_api.py lines 979-981) -/

/-- `_request` returns `None` without any network call when the Comic Vine
API key is falsy; `get_details` then returns `None`. -/
def comicvineGetDetails (apiKey : Option String)
    (respond : Option DetailRecord) : Option DetailRecord :=
  if pyTruthyStr apiKey = false then none else respond

/-! ## Search-preview normalization of the remaining adapters

OpenLibraryClient (lines 510-550), MangaDexClient (lines 759-819),
GoogleBooksClient (lines 911-940) and ComicVineClient (lines 1003-1032):
the claim-relevant projection of their search normalizers (id, title,
description preview). -/

/-- Python `d.get(k, dflt)` for a JSON string-or-null value: the outer
`Option` is key presence (absent uses the default), the inner one the
possibly-null value, which is returned as-is when the key is present. -/
def dictGetD (entry : Option (Option String)) (dflt : String) : Option String :=
  match entry with
  | none => some dflt
  | some v => v

/-- Skip to just past the next `>`, if any. -/
def skipToGt : List Char → Option (List Char)
  | [] => none
  | '>' :: r => some r
  | _ :: r => skipToGt r

/-- After a `<`: the regex `<[^>]+>` matches iff at least one non-`>`
character precedes a closing `>`; returns the remainder after the match. -/
def cvTagRest : List Char → Option (List Char)
  | [] => none
  | d :: r2 => if d = '>' then none else skipToGt r2

/-- Worker for `reSubTags`; `fuel` is the input length, enough because
every step consumes at least one character. -/
def reSubTagsAux : Nat → List Char → List Char
  | 0, cs => cs
  | _ + 1, [] => []
  | fuel + 1, c :: rest =>
    if c = '<' then
      match cvTagRest rest with
      | some r => reSubTagsAux fuel r
      | none => c :: reSubTagsAux fuel rest
    else c :: reSubTagsAux fuel rest

/-- Python `re.sub(r'<[^>]+>', '', s)`: delete every tag-shaped run,
scanning left to right (an unclosed `<` or an empty `<>` is kept). -/
def reSubTags (s : String) : String :=
  String.mk (reSubTagsAux s.data.length s.data)

structure OpenLibraryDoc where
  key : Option String
  titleKey : Option (Option String)
  deriving DecidableEq, Repr

namespace OpenLibraryClient

/-- Normalization of one search doc (lines 521-548, claim-relevant
fields): the search endpoint returns no description, so the preview is the
empty string (line 541). -/
def searchResultOf (doc : OpenLibraryDoc) : SearchResult :=
  { id := pyReplace (doc.key.getD "") "/works/" ""
    source := "openlibrary"
    title := dictGetD doc.titleKey "Unknown"
    originalTitle := none
    descriptionPreview := "" }

end OpenLibraryClient

structure MangaDexAttrs where
  title : List (String × String)
  description : List (String × String)
  deriving DecidableEq, Repr

structure MangaDexManga where
  id : String
  attributes : MangaDexAttrs
  deriving DecidableEq, Repr

namespace MangaDexClient

/-- `next(iter(m.values()), dflt)`: the first value of an
insertion-ordered dict, or the default when the dict is empty. -/
def firstValue (m : List (String × String)) (dflt : String) : String :=
  match m with
  | [] => dflt
  | (_, v) :: _ => v

/-- `titles.get("en") or titles.get("ja-ro") or
next(iter(titles.values()), "Unknown")` (line 782). -/
def pickTitle (titleMap : List (String × String)) : String :=
  pyStrOr (titleMap.lookup "en")
    (pyStrOr (titleMap.lookup "ja-ro") (firstValue titleMap "Unknown"))

/-- `desc_map.get("en") or next(iter(desc_map.values()), "")`
(line 786). -/
def descOf (descMap : List (String × String)) : String :=
  pyStrOr (descMap.lookup "en") (firstValue descMap "")

/-- Normalization of one search hit (lines 777-817, claim-relevant
fields); the preview truncation on line 787 is the shared 200 + `"..."`
pattern. -/
def searchResultOf (item : MangaDexManga) : SearchResult :=
  { id := item.id
    source := "mangadex"
    title := some (pickTitle item.attributes.title)
    originalTitle := none
    descriptionPreview := previewWithEllipsis (descOf item.attributes.description) }

end MangaDexClient

structure GoogleBooksVolumeInfo where
  titleKey : Option (Option String)
  description : Option String
  deriving DecidableEq, Repr

structure GoogleBooksItem where
  id : String
  volumeInfo : GoogleBooksVolumeInfo
  deriving DecidableEq, Repr

namespace GoogleBooksClient

/-- Normalization of one search hit (lines 918-939, claim-relevant
fields): `(info.get("description") or "")[:200]` — a bare slice, no
ellipsis (line 936). -/
def searchResultOf (item : GoogleBooksItem) : SearchResult :=
  { id := item.id
    source := "googlebooks"
    title := dictGetD item.volumeInfo.titleKey "Unknown"
    originalTitle := none
    descriptionPreview := pySlice (pyStrOr item.volumeInfo.description "") 200 }

end GoogleBooksClient

structure ComicVineItem where
  id : Int
  nameKey : Option (Option String)
  deck : Option String
  description : Option String
  deriving DecidableEq, Repr

namespace ComicVineClient

/-- `item.get("deck") or item.get("description") or ""` followed by the
`re.sub(r'<[^>]+>', '', desc)` tag strip (lines 1018-1019). -/
def descOf (item : ComicVineItem) : String :=
  reSubTags (pyStrOr item.deck (pyStrOr item.description ""))

/-- Normalization of one search hit (lines 1011-1030, claim-relevant
fields); the preview truncation on line 1027 is the shared 200 + `"..."`
pattern. -/
def searchResultOf (item : ComicVineItem) : SearchResult :=
  { id := toString item.id
    source := "comicvine"
    title := dictGetD item.nameKey "Unknown"
    originalTitle := none
    descriptionPreview := previewWithEllipsis (descOf item) }

end ComicVineClient

/-! ## Rate Governor (external_api.py lines 23-24 and 144-151)

Idealized real-time model over `ℚ`: `now` is the clock reading taken at
the top of `_rate_limit`, `last` the module-level `_last_anilist_request`,
and `postSleepDelta ≥ 0` the extra wall time between `now` and the second
`time.time()` call beyond the requested sleep (sleep overshoot plus
instruction time). -/

def ANILIST_MIN_INTERVAL : ℚ := 7 / 10

namespace AniListClient

/-- The sleep requested by `_rate_limit` (lines 148-150). -/
def rateLimitSleep (now last : ℚ) : ℚ :=
  if now - last < ANILIST_MIN_INTERVAL then ANILIST_MIN_INTERVAL - (now - last)
  else 0

/-- The timestamp recorded on line 151 (`time.time()` taken after the
sleep) — also the earliest moment the subsequent outbound request can be
issued. -/
def rateLimitTimestamp (now last postSleepDelta : ℚ) : ℚ :=
  now + rateLimitSleep now last + postSleepDelta

end AniListClient

/-! ## ExternalAPIService — the Federation Facade (lines 1074-1222) -/

/-- The adapter dispatch a `search` call resolves to: `empty` means the
facade returns `[]` without consulting any adapter; the other constructors
record which client is called and with which query / media type
arguments. -/
inductive SearchDispatch where
  | empty
  | tmdb (query media_type : String)
  | tvmaze (query media_type : String)
  | anilist (query media_type : String)
  | openlibrary (query : String)
  | mangadex (query media_type : String)
  | googlebooks (query media_type : String)
  | comicvine (query media_type : String)
  deriving DecidableEq, Repr

namespace ExternalAPIService

/-- Routing logic of `search` (lines 1096-1181): empty-query gate, explicit
source override branch, then the per-category default routing consulting
the persisted `searchPriorities` map (`priorities`) and the TMDB key
(`tmdbKey`, from `self.tmdb.api_key`). -/
def searchRoute (query media_type : String) (source : Option String)
    (priorities : String → Option String) (tmdbKey : Option String) :
    SearchDispatch :=
  if pyStrip query = "" then .empty
  else
    let q := pyStrip query
    match source with
    | some src =>
      if src = "tmdb" then
        let tmdb_type := if media_type = "Anime" then "Series" else media_type
        if tmdb_type = "Movie" ∨ tmdb_type = "Series" then .tmdb q tmdb_type
        else .empty
      else if src = "tvmaze" then
        if media_type = "Series" ∨ media_type = "Anime" then .tvmaze q "Series"
        else .empty
      else if src = "anilist" then
        if media_type = "Anime" ∨ media_type = "Manga" ∨ media_type = "Movie"
            ∨ media_type = "Series" then
          .anilist q (if media_type = "Movie" ∨ media_type = "Series"
                      then "Anime" else media_type)
        else .empty
      else if src = "openlibrary" then .openlibrary q
      else if src = "mangadex" then .mangadex q media_type
      else if src = "googlebooks" then .googlebooks q media_type
      else if src = "comicvine" then .comicvine q media_type
      else .empty
    | none =>
      let p := priorities media_type
      if media_type = "Anime" then
        if p = some "tmdb" then .tmdb q "Series"
        else if p = some "tvmaze" then .tvmaze q "Series"
        else .anilist q media_type
      else if media_type = "Manga" then
        if p = some "anilist" then .anilist q media_type
        else .mangadex q media_type
      else if media_type = "Movie" then
        if p = some "anilist" then .anilist q "Anime"
        else .tmdb q media_type
      else if media_type = "Series" then
        if p = some "anilist" then .anilist q "Anime"
        else if p = some "tvmaze" then .tvmaze q media_type
        else if p = some "tmdb" ∧ pyTruthyStr tmdbKey then .tmdb q media_type
        else if pyTruthyStr tmdbKey then .tmdb q media_type
        else .tvmaze q media_type
      else if media_type = "Book" then
        if p = some "googlebooks" then .googlebooks q media_type
        else if p = some "comicvine" then .comicvine q media_type
        else .openlibrary q
      else .empty

/-- The environment a `get_details` call runs against: per-adapter
credentials and upstream responses.  The OpenLibrary, MangaDex, GoogleBooks
and ComicVine normalizations are not claim-relevant, so their client
results are passed in already normalized (each of those clients also
returns `None` on request failure). -/
structure DetailsEnv where
  anilist : Int → Option AniListDetailMedia
  tmdbKey : Option String
  tmdb : Option TMDBDetailData
  tvmazeShow : Option TVMazeShowDetail
  tvmazeEpisodes : Option (List TVMazeEpisode)
  openlibrary : Option DetailRecord
  mangadex : Option DetailRecord
  googlebooks : Option DetailRecord
  comicvineKey : Option String
  comicvine : Option DetailRecord

/-- The source names the `get_details` elif-chain recognises
(lines 1195-1208); any other source logs a warning and returns `None`. -/
def DETAIL_SOURCES : List String :=
  ["anilist", "tmdb", "tvmaze", "openlibrary", "mangadex", "googlebooks",
   "comicvine"]

/-- `get_details` (lines 1183-1211): pure source dispatch; every failure
path of every branch yields `none` — the method contains no raise. -/
def get_details (env : DetailsEnv) (external_id media_type source : String) :
    Option DetailRecord :=
  if source = "anilist" then AniListClient.get_details external_id env.anilist
  else if source = "tmdb" then TMDBClient.get_details env.tmdbKey media_type env.tmdb
  else if source = "tvmaze" then TVMazeAPI.get_details env.tvmazeShow env.tvmazeEpisodes
  else if source = "openlibrary" then env.openlibrary
  else if source = "mangadex" then env.mangadex
  else if source = "googlebooks" then env.googlebooks
  else if source = "comicvine" then comicvineGetDetails env.comicvineKey env.comicvine
  else none

end ExternalAPIService

/-! ## Shared lemmas -/

/-- A Python `or` chain with a non-empty string default never yields the
empty string. -/
theorem pyStrOr_ne_empty (a : Option String) (d : String) (h : d ≠ "") :
    pyStrOr a d ≠ "" := by
  unfold pyStrOr
  cases a with
  | none => exact h
  | some s =>
    by_cases hs : s = ""
    · simpa [hs] using h
    · simp [hs]

/-- The AniList title fallback chain never yields the empty string. -/
theorem pickTitle_ne_empty (t : AniListTitle) : AniListClient.pickTitle t ≠ "" :=
  pyStrOr_ne_empty _ _ (pyStrOr_ne_empty _ _ (pyStrOr_ne_empty _ _ (by decide)))

theorem string_mk_length (l : List Char) : (String.mk l).length = l.length := rfl

theorem pySlice_length (s : String) (n : Nat) :
    (pySlice s n).length = min n s.length := by
  rw [pySlice, string_mk_length]
  exact List.length_take n s.data

/-- The shared truncation pattern always produces at most 203 characters. -/
theorem previewWithEllipsis_length (d : String) :
    (previewWithEllipsis d).length ≤ 203 := by
  unfold previewWithEllipsis
  by_cases h : d.length > 200
  · rw [if_pos h, String.length_append, pySlice_length]
    have h1 : min 200 d.length = 200 := Nat.min_eq_left (Nat.le_of_lt h)
    have h3 : ("..." : String).length = 3 := rfl
    omega
  · rw [if_neg h]
    omega

theorem previewWithEllipsis_long (d : String) (h : 200 < d.length) :
    previewWithEllipsis d = pySlice d 200 ++ "..." := by
  unfold previewWithEllipsis
  exact if_pos h

theorem previewWithEllipsis_short (d : String) (h : d.length ≤ 200) :
    previewWithEllipsis d = d := by
  unfold previewWithEllipsis
  exact if_neg (by omega)

/-- The truthiness-guarded accumulation of `total_episodes` equals the sum
of the per-season counts with `None` read as 0. -/
theorem foldl_episode_sum (g : TVMazeSeason → Option Int)
    (l : List TVMazeSeason) (acc : Int) :
    l.foldl (fun a s =>
      match g s with
      | some n => if n ≠ 0 then a + n else a
      | none => a) acc
    = acc + (l.map (fun s => (g s).getD 0)).sum := by
  induction l generalizing acc with
  | nil => simp
  | cons s t ih =>
    rw [List.foldl_cons, ih, List.map_cons, List.sum_cons]
    cases hg : g s with
    | none => simp [hg]
    | some n =>
      simp only [hg, Option.getD_some]
      by_cases hn : n = 0
      · simp [hn]
      · rw [if_pos hn]
        omega

/-- The manual episode count is never negative (it is a list length). -/
theorem episodeCountFor_nonneg (eps : List TVMazeEpisode) (num : Option Int) :
    0 ≤ (TVMazeAPI.episodeCountFor eps num).getD 0 := by
  unfold TVMazeAPI.episodeCountFor
  cases num with
  | none => simp
  | some k =>
    by_cases hk : k = 0
    · simp [hk]
    · simp only [if_neg hk]
      by_cases hc : ((eps.filter (fun e => e.season == some k)).length : Nat) = 0
      · simp [hc]
      · simp only [if_neg hc, Option.getD_some]
        positivity

/-- A non-empty string wrapped in `some` is neither a null title nor an
empty title. -/
theorem some_title_ok (s : String) (hs : s ≠ "") :
    (some s : Option String) ≠ none ∧ (some s : Option String) ≠ some "" :=
  ⟨by simp, by simpa using hs⟩

/-- The TMDB `title or name or "Unknown"` chain never yields the empty
string. -/
theorem tmdbTitle_ne_empty (a b : Option String) :
    pyStrOr a (pyStrOr b "Unknown") ≠ "" :=
  pyStrOr_ne_empty _ _ (pyStrOr_ne_empty _ _ (by decide))

/-! ## Claim C1 -/

/-- Claim C1 (amended): the AniList and TMDB adapters always produce a
non-empty title — their fallback chains end in the literal `"Unknown"` —
for both search results and detail records.  (The TVMaze adapter, by
contrast, propagates the upstream `name` unchanged; see the
counterexample.) -/
theorem claim_C1_amended :
    (∀ (items : List AniListSearchMedia) (r : SearchResult),
      r ∈ AniListClient.searchNormalize items →
        r.title ≠ none ∧ r.title ≠ some "")
    ∧ (∀ item : AniListDetailMedia,
        (AniListClient.detailRecordOf item).title ≠ none
        ∧ (AniListClient.detailRecordOf item).title ≠ some "")
    ∧ (∀ (items : List TMDBSearchItem) (r : SearchResult),
      r ∈ TMDBClient.searchNormalize items →
        r.title ≠ none ∧ r.title ≠ some "")
    ∧ (∀ (d : TMDBDetailData) (media_type : String),
        (TMDBClient.detailRecordOf d media_type).title ≠ none
        ∧ (TMDBClient.detailRecordOf d media_type).title ≠ some "") := by
  refine ⟨?_, ?_, ?_, ?_⟩
  · intro items r hr
    simp only [AniListClient.searchNormalize, List.mem_map] at hr
    obtain ⟨item, -, rfl⟩ := hr
    exact some_title_ok _ (pickTitle_ne_empty _)
  · intro item
    exact some_title_ok _ (pickTitle_ne_empty _)
  · intro items r hr
    simp only [TMDBClient.searchNormalize, List.mem_map] at hr
    obtain ⟨item, -, rfl⟩ := hr
    exact some_title_ok _ (tmdbTitle_ne_empty _ _)
  · intro d media_type
    exact some_title_ok _ (tmdbTitle_ne_empty _ _)

def c1AniItem : AniListSearchMedia := ⟨1, ⟨none, none, none⟩, none, none, none, none⟩
def c1AniDetail : AniListDetailMedia := ⟨3, ⟨some "T", none, none⟩, none, [], none, none, none⟩
def c1TmdbItem : TMDBSearchItem := ⟨2, none, none, none, none, none⟩
def c1TmdbDetail : TMDBDetailData :=
  ⟨4, none, some "N", none, none, none, [], none, none, none, none, []⟩

/-- Concrete instances of the C1 theorem, one per conjunct. -/
theorem claim_C1_witness :
    ((AniListClient.searchResultOf c1AniItem).title ≠ none
      ∧ (AniListClient.searchResultOf c1AniItem).title ≠ some "")
    ∧ ((AniListClient.detailRecordOf c1AniDetail).title ≠ none
      ∧ (AniListClient.detailRecordOf c1AniDetail).title ≠ some "")
    ∧ ((TMDBClient.searchResultOf c1TmdbItem).title ≠ none
      ∧ (TMDBClient.searchResultOf c1TmdbItem).title ≠ some "")
    ∧ ((TMDBClient.detailRecordOf c1TmdbDetail "Movie").title ≠ none
      ∧ (TMDBClient.detailRecordOf c1TmdbDetail "Movie").title ≠ some "") :=
  ⟨claim_C1_amended.1 [c1AniItem] _ (by simp [AniListClient.searchNormalize]),
   claim_C1_amended.2.1 c1AniDetail,
   claim_C1_amended.2.2.1 [c1TmdbItem] _ (by simp [TMDBClient.searchNormalize]),
   claim_C1_amended.2.2.2 c1TmdbDetail "Movie"⟩

def tvmazeNoNameShow : TVMazeShow := ⟨none, none, none, []⟩

/-- Claim C1 counterexample: a TVMaze search payload whose show object has
no `name` yields a `SearchResult` whose title is null — the adapter has no
fallback chain and substitutes no placeholder, contradicting the claim that
every adapter's titles are non-empty strings. -/
theorem claim_C1_counterexample :
    (TVMazeAPI.search "Series" [some tvmazeNoNameShow]).map SearchResult.title
      = [none] := by decide

/-! ## Claim C3 -/

/-- Claim C3 (amended): every adapter's descriptionPreview is at most 203
characters; the AniList, TMDB, MangaDex and ComicVine previews carry the
`"..."` suffix exactly when the cleaned source description exceeds 200
characters; the TVMaze and GoogleBooks previews are the (cleaned)
description sliced to its first 200 characters with no ellipsis ever
appended (length at most 200); and the OpenLibrary search preview is
always the empty string. -/
theorem claim_C3_amended :
    (∀ item : AniListSearchMedia,
      (AniListClient.searchResultOf item).descriptionPreview.length ≤ 203
      ∧ (200 < (pyStrOr item.description "").length →
          (AniListClient.searchResultOf item).descriptionPreview
            = pySlice (pyStrOr item.description "") 200 ++ "...")
      ∧ ((pyStrOr item.description "").length ≤ 200 →
          (AniListClient.searchResultOf item).descriptionPreview
            = pyStrOr item.description ""))
    ∧ (∀ item : TMDBSearchItem,
      (TMDBClient.searchResultOf item).descriptionPreview.length ≤ 203
      ∧ (200 < (pyStrOr item.overview "").length →
          (TMDBClient.searchResultOf item).descriptionPreview
            = pySlice (pyStrOr item.overview "") 200 ++ "...")
      ∧ ((pyStrOr item.overview "").length ≤ 200 →
          (TMDBClient.searchResultOf item).descriptionPreview
            = pyStrOr item.overview ""))
    ∧ (∀ item : MangaDexManga,
      (MangaDexClient.searchResultOf item).descriptionPreview.length ≤ 203
      ∧ (200 < (MangaDexClient.descOf item.attributes.description).length →
          (MangaDexClient.searchResultOf item).descriptionPreview
            = pySlice (MangaDexClient.descOf item.attributes.description) 200
                ++ "...")
      ∧ ((MangaDexClient.descOf item.attributes.description).length ≤ 200 →
          (MangaDexClient.searchResultOf item).descriptionPreview
            = MangaDexClient.descOf item.attributes.description))
    ∧ (∀ item : ComicVineItem,
      (ComicVineClient.searchResultOf item).descriptionPreview.length ≤ 203
      ∧ (200 < (ComicVineClient.descOf item).length →
          (ComicVineClient.searchResultOf item).descriptionPreview
            = pySlice (ComicVineClient.descOf item) 200 ++ "...")
      ∧ ((ComicVineClient.descOf item).length ≤ 200 →
          (ComicVineClient.searchResultOf item).descriptionPreview
            = ComicVineClient.descOf item))
    ∧ (∀ sh : TVMazeShow,
      (TVMazeAPI.searchResultOf sh).descriptionPreview.length ≤ 200
      ∧ (TVMazeAPI.searchResultOf sh).descriptionPreview
          = pySlice (TVMazeAPI.cleanSummary sh.summary) 200)
    ∧ (∀ item : GoogleBooksItem,
      (GoogleBooksClient.searchResultOf item).descriptionPreview.length ≤ 200
      ∧ (GoogleBooksClient.searchResultOf item).descriptionPreview
          = pySlice (pyStrOr item.volumeInfo.description "") 200)
    ∧ (∀ doc : OpenLibraryDoc,
      (OpenLibraryClient.searchResultOf doc).descriptionPreview = "") := by
  refine ⟨fun item => ⟨?_, ?_, ?_⟩, fun item => ⟨?_, ?_, ?_⟩,
    fun item => ⟨?_, ?_, ?_⟩, fun item => ⟨?_, ?_, ?_⟩,
    fun sh => ⟨?_, rfl⟩, fun item => ⟨?_, rfl⟩, fun doc => rfl⟩
  · exact previewWithEllipsis_length _
  · exact previewWithEllipsis_long _
  · exact previewWithEllipsis_short _
  · exact previewWithEllipsis_length _
  · exact previewWithEllipsis_long _
  · exact previewWithEllipsis_short _
  · exact previewWithEllipsis_length _
  · exact previewWithEllipsis_long _
  · exact previewWithEllipsis_short _
  · exact previewWithEllipsis_length _
  · exact previewWithEllipsis_long _
  · exact previewWithEllipsis_short _
  · show (pySlice (TVMazeAPI.cleanSummary sh.summary) 200).length ≤ 200
    rw [pySlice_length]
    exact Nat.min_le_left _ _
  · show (pySlice (pyStrOr item.volumeInfo.description "") 200).length ≤ 200
    rw [pySlice_length]
    exact Nat.min_le_left _ _

def c3LongDesc : String := String.mk (List.replicate 201 'a')
def c3AniLong : AniListSearchMedia :=
  ⟨10, ⟨some "T", none, none⟩, some c3LongDesc, none, none, none⟩
def c3TmdbShort : TMDBSearchItem := ⟨11, some "T", none, none, none, some "short"⟩
def c3MdLong : MangaDexManga := ⟨"uuid-1", ⟨[("en", "T")], [("en", c3LongDesc)]⟩⟩
def c3CvShort : ComicVineItem := ⟨12, some (some "V"), some "<p>hi</p>", none⟩
def c3Show : TVMazeShow := ⟨some 5, some "X", some c3LongDesc, []⟩
def c3GbLong : GoogleBooksItem := ⟨"gb1", ⟨some (some "T"), some c3LongDesc⟩⟩
def c3OlDoc : OpenLibraryDoc := ⟨some "/works/OL1W", some (some "T")⟩

/-- Concrete instances of the C3 theorem, one per adapter: 201-character
descriptions exercise the truncated branches (AniList, MangaDex,
GoogleBooks), short descriptions the identity branches (TMDB, ComicVine
through its tag strip), plus the TVMaze slicing equation and the empty
OpenLibrary preview. -/
theorem claim_C3_witness :
    ((AniListClient.searchResultOf c3AniLong).descriptionPreview.length ≤ 203
      ∧ (AniListClient.searchResultOf c3AniLong).descriptionPreview
          = pySlice (pyStrOr c3AniLong.description "") 200 ++ "...")
    ∧ (TMDBClient.searchResultOf c3TmdbShort).descriptionPreview
        = pyStrOr c3TmdbShort.overview ""
    ∧ (MangaDexClient.searchResultOf c3MdLong).descriptionPreview
        = pySlice (MangaDexClient.descOf c3MdLong.attributes.description) 200
            ++ "..."
    ∧ (ComicVineClient.searchResultOf c3CvShort).descriptionPreview
        = ComicVineClient.descOf c3CvShort
    ∧ ((TVMazeAPI.searchResultOf c3Show).descriptionPreview.length ≤ 200
      ∧ (TVMazeAPI.searchResultOf c3Show).descriptionPreview
          = pySlice (TVMazeAPI.cleanSummary c3Show.summary) 200)
    ∧ ((GoogleBooksClient.searchResultOf c3GbLong).descriptionPreview.length ≤ 200
      ∧ (GoogleBooksClient.searchResultOf c3GbLong).descriptionPreview
          = pySlice (pyStrOr c3GbLong.volumeInfo.description "") 200)
    ∧ (OpenLibraryClient.searchResultOf c3OlDoc).descriptionPreview = "" :=
  ⟨⟨(claim_C3_amended.1 c3AniLong).1,
    (claim_C3_amended.1 c3AniLong).2.1 (by decide)⟩,
   (claim_C3_amended.2.1 c3TmdbShort).2.2 (by decide),
   (claim_C3_amended.2.2.1 c3MdLong).2.1 (by decide),
   (claim_C3_amended.2.2.2.1 c3CvShort).2.2 (by decide),
   claim_C3_amended.2.2.2.2.1 c3Show,
   claim_C3_amended.2.2.2.2.2.1 c3GbLong,
   claim_C3_amended.2.2.2.2.2.2 c3OlDoc⟩

/-- Claim C3 counterexample: a TVMaze show whose cleaned summary has 201
characters produces a 200-character preview with no ellipsis suffix, so
the "ellipsis present iff the cleaned description exceeded 200 characters"
rule fails for the TVMaze adapter. -/
theorem claim_C3_counterexample :
    200 < (TVMazeAPI.cleanSummary c3Show.summary).length
    ∧ (TVMazeAPI.searchResultOf c3Show).descriptionPreview.length = 200
    ∧ ("...".data.isSuffixOf
        (TVMazeAPI.searchResultOf c3Show).descriptionPreview.data) = false := by
  decide

/-! ## Claim C4 -/

def c4Item : AniListDetailMedia :=
  ⟨30, ⟨none, none, some "Suzume"⟩, none, [], none, none, none⟩

/-- Claim C4 counterexample: an AniList details payload with only a native
title yields that native title as the primary title, but the
alternate-title list also contains it — the normalizer appends the native
title unconditionally, so the "no duplicate of the primary title" half of
the claim is false. -/
theorem claim_C4_counterexample :
    (AniListClient.detailRecordOf c4Item).title = some "Suzume"
    ∧ "Suzume" ∈ (AniListClient.detailRecordOf c4Item).alternateTitles := by
  decide

/-- Claim C4 (amended): with only a native title present, the normalizer
returns the native title as the primary title — and the alternate-title
list is exactly that same native title followed by the first five synonyms
(the guard `romaji != title` has no counterpart for the native title). -/
theorem claim_C4_amended (item : AniListDetailMedia) (nt : String)
    (he : item.title.english = none) (hr : item.title.romaji = none)
    (hn : item.title.native = some nt) (hne : nt ≠ "") :
    (AniListClient.detailRecordOf item).title = some nt
    ∧ (AniListClient.detailRecordOf item).alternateTitles
        = nt :: item.synonyms.take 5 := by
  have ht : AniListClient.pickTitle item.title = nt := by
    simp [AniListClient.pickTitle, he, hr, hn, pyStrOr, hne]
  constructor
  · show some (AniListClient.pickTitle item.title) = some nt
    rw [ht]
  · show (match item.title.romaji with
      | some r => if r ≠ "" ∧ r ≠ AniListClient.pickTitle item.title then [r] else []
      | none => []) ++
      (match item.title.native with
      | some n => if n ≠ "" then [n] else []
      | none => []) ++ item.synonyms.take 5 = nt :: item.synonyms.take 5
    rw [hr, hn]
    simp [hne]

/-- Concrete instance of the amended C4 theorem. -/
theorem claim_C4_witness :
    (AniListClient.detailRecordOf c4Item).title = some "Suzume"
    ∧ (AniListClient.detailRecordOf c4Item).alternateTitles
        = "Suzume" :: c4Item.synonyms.take 5 :=
  claim_C4_amended c4Item "Suzume" rfl rfl rfl (by decide)

/-! ## Claim C2 -/

/-- A details environment in which every failure condition holds at once:
no TMDB key, an AniList upstream that fails every request, and a failing
TVMaze upstream. -/
def c2Env : ExternalAPIService.DetailsEnv :=
  { anilist := fun _ => none
    tmdbKey := none
    tmdb := none
    tvmazeShow := none
    tvmazeEpisodes := none
    openlibrary := none
    mangadex := none
    googlebooks := none
    comicvineKey := none
    comicvine := none }

/-- Claim C2 counterexample: the Facade's `get_details` silently returns
null for all three failure conditions the claim says must raise — an
unknown source outside the allow-list, a TMDB call with no API key
configured, and an AniList call whose upstream request fails.  The method
body contains no raise at all, so the caller cannot distinguish these from
"not found". -/
theorem claim_C2_counterexample :
    ("imdb" ∈ ExternalAPIService.DETAIL_SOURCES) = False
    ∧ ExternalAPIService.get_details c2Env "603" "Movie" "imdb" = none
    ∧ ExternalAPIService.get_details c2Env "603" "Movie" "tmdb" = none
    ∧ ExternalAPIService.get_details c2Env "21" "Anime" "anilist" = none := by
  refine ⟨by simp [ExternalAPIService.DETAIL_SOURCES], by decide, by decide, by decide⟩

/-- Claim C2 (amended): `get_details` never raises; it returns null — the
same value as a genuine "not found" — when the source is outside the
allow-list, when the TMDB adapter's required key is absent, when the
AniList upstream is unreachable or returns malformed data, and when the
TVMaze upstream fails. -/
theorem claim_C2_amended (env : ExternalAPIService.DetailsEnv)
    (external_id media_type src : String) :
    (src ∉ ExternalAPIService.DETAIL_SOURCES →
      ExternalAPIService.get_details env external_id media_type src = none)
    ∧ (env.tmdbKey = none →
      ExternalAPIService.get_details env external_id media_type "tmdb" = none)
    ∧ ((∀ n, env.anilist n = none) →
      ExternalAPIService.get_details env external_id media_type "anilist" = none)
    ∧ (env.tvmazeShow = none →
      ExternalAPIService.get_details env external_id media_type "tvmaze" = none) := by
  refine ⟨?_, ?_, ?_, ?_⟩
  · intro h
    simp only [ExternalAPIService.DETAIL_SOURCES, List.mem_cons,
      List.not_mem_nil, or_false, not_or] at h
    obtain ⟨h1, h2, h3, h4, h5, h6, h7⟩ := h
    simp [ExternalAPIService.get_details, h1, h2, h3, h4, h5, h6, h7]
  · intro hkey
    simp [ExternalAPIService.get_details, TMDBClient.get_details, hkey,
      pyTruthyStr]
  · intro hresp
    cases hp : pythonParseInt external_id with
    | none =>
      simp [ExternalAPIService.get_details, AniListClient.get_details, hp]
    | some n =>
      simp [ExternalAPIService.get_details, AniListClient.get_details, hp,
        hresp n]
  · intro hshow
    simp [ExternalAPIService.get_details, TVMazeAPI.get_details, hshow]

/-- Concrete instance of the amended C2 theorem, discharging each
hypothesis at `c2Env`. -/
theorem claim_C2_witness :
    ExternalAPIService.get_details c2Env "603" "Movie" "imdb" = none
    ∧ ExternalAPIService.get_details c2Env "603" "Movie" "tmdb" = none
    ∧ ExternalAPIService.get_details c2Env "21" "Anime" "anilist" = none
    ∧ ExternalAPIService.get_details c2Env "82" "Series" "tvmaze" = none :=
  ⟨(claim_C2_amended c2Env "603" "Movie" "imdb").1
      (by simp [ExternalAPIService.DETAIL_SOURCES]),
   (claim_C2_amended c2Env "603" "Movie" "x").2.1 rfl,
   (claim_C2_amended c2Env "21" "Anime" "x").2.2.1 (fun _ => rfl),
   (claim_C2_amended c2Env "82" "Series" "x").2.2.2 rfl⟩

/-! ## Claim C5 -/

/-- Claim C5: a query that is empty or whitespace-only makes the Facade's
`search` return the empty dispatch — `[]` with no adapter consulted and no
network call — for every category, override and configuration. -/
theorem claim_C5 (query media_type : String) (source : Option String)
    (priorities : String → Option String) (tmdbKey : Option String)
    (h : pyStrip query = "") :
    ExternalAPIService.searchRoute query media_type source priorities tmdbKey
      = .empty := by
  simp [ExternalAPIService.searchRoute, h]

/-- Concrete instance: a whitespace-only query. -/
theorem claim_C5_witness :
    ExternalAPIService.searchRoute "  \t " "Anime" none (fun _ => none) none
      = .empty :=
  claim_C5 "  \t " "Anime" none (fun _ => none) none (by decide)

/-! ## Claim C6 -/

/-- Claim C6 counterexample: category Series with an explicit override of
the books-only OpenLibrary adapter does not return the empty result — the
Facade dispatches to the OpenLibrary adapter unconditionally, with no
compatibility validation for that override. -/
theorem claim_C6_counterexample :
    ExternalAPIService.searchRoute "dune" "Series" (some "openlibrary")
      (fun _ => none) none = .openlibrary "dune"
    ∧ SearchDispatch.openlibrary "dune" ≠ .empty := by
  refine ⟨by decide, by decide⟩

/-- Claim C6 (amended): only the tmdb, tvmaze and anilist overrides are
validated against the category — an incompatible combination (and any
unrecognised override string) returns the empty dispatch without error —
while overrides naming openlibrary, mangadex, googlebooks or comicvine are
dispatched to that adapter regardless of the requested category. -/
theorem claim_C6_amended (query media_type : String)
    (priorities : String → Option String) (tmdbKey : Option String)
    (hq : pyStrip query ≠ "") :
    (media_type ≠ "Series" → media_type ≠ "Anime" →
      ExternalAPIService.searchRoute query media_type (some "tvmaze")
        priorities tmdbKey = .empty)
    ∧ (media_type ≠ "Movie" → media_type ≠ "Series" → media_type ≠ "Anime" →
      ExternalAPIService.searchRoute query media_type (some "tmdb")
        priorities tmdbKey = .empty)
    ∧ (media_type ≠ "Anime" → media_type ≠ "Manga" → media_type ≠ "Movie" →
        media_type ≠ "Series" →
      ExternalAPIService.searchRoute query media_type (some "anilist")
        priorities tmdbKey = .empty)
    ∧ ExternalAPIService.searchRoute query media_type (some "openlibrary")
        priorities tmdbKey = .openlibrary (pyStrip query)
    ∧ ExternalAPIService.searchRoute query media_type (some "mangadex")
        priorities tmdbKey = .mangadex (pyStrip query) media_type
    ∧ ExternalAPIService.searchRoute query media_type (some "googlebooks")
        priorities tmdbKey = .googlebooks (pyStrip query) media_type
    ∧ ExternalAPIService.searchRoute query media_type (some "comicvine")
        priorities tmdbKey = .comicvine (pyStrip query) media_type := by
  refine ⟨?_, ?_, ?_, ?_, ?_, ?_, ?_⟩
  · intro h1 h2
    simp [ExternalAPIService.searchRoute, hq, h1, h2]
  · intro h1 h2 h3
    simp [ExternalAPIService.searchRoute, hq, h1, h2, h3]
  · intro h1 h2 h3 h4
    simp [ExternalAPIService.searchRoute, hq, h1, h2, h3, h4]
  · simp [ExternalAPIService.searchRoute, hq]
  · simp [ExternalAPIService.searchRoute, hq]
  · simp [ExternalAPIService.searchRoute, hq]
  · simp [ExternalAPIService.searchRoute, hq]

/-- Concrete instances of the amended C6 theorem: each incompatible
override with category Book (respectively Series for the books-only
adapters) at a fixed query. -/
theorem claim_C6_witness :
    ExternalAPIService.searchRoute "dune" "Book" (some "tvmaze")
      (fun _ => none) none = .empty
    ∧ ExternalAPIService.searchRoute "dune" "Book" (some "tmdb")
      (fun _ => none) none = .empty
    ∧ ExternalAPIService.searchRoute "dune" "Book" (some "anilist")
      (fun _ => none) none = .empty
    ∧ ExternalAPIService.searchRoute "dune" "Series" (some "mangadex")
      (fun _ => none) none = .mangadex "dune" "Series" :=
  ⟨(claim_C6_amended "dune" "Book" (fun _ => none) none (by decide)).1
      (by decide) (by decide),
   (claim_C6_amended "dune" "Book" (fun _ => none) none (by decide)).2.1
      (by decide) (by decide) (by decide),
   (claim_C6_amended "dune" "Book" (fun _ => none) none (by decide)).2.2.1
      (by decide) (by decide) (by decide) (by decide),
   (claim_C6_amended "dune" "Series" (fun _ => none) none (by decide)).2.2.2.2.1⟩

/-! ## Claim C10 -/

/-- Claim C10: explicit overrides silently rewrite the category before
dispatch — a tmdb override with category Anime searches TMDB's TV-series
endpoint (Anime mapped to Series, and Series maps to `/search/tv`), and an
anilist override with category Movie or Series searches AniList with the
Anime hint, which the client turns into its `ANIME` media type. -/
theorem claim_C10 (query : String) (priorities : String → Option String)
    (tmdbKey : Option String) (hq : pyStrip query ≠ "") :
    (ExternalAPIService.searchRoute query "Anime" (some "tmdb") priorities
        tmdbKey = .tmdb (pyStrip query) "Series"
      ∧ TMDBClient.endpointOf (some "Series") = "/search/tv")
    ∧ (ExternalAPIService.searchRoute query "Movie" (some "anilist")
        priorities tmdbKey = .anilist (pyStrip query) "Anime"
      ∧ ExternalAPIService.searchRoute query "Series" (some "anilist")
        priorities tmdbKey = .anilist (pyStrip query) "Anime"
      ∧ AniListClient.anilistTypeOf (some "Anime") = "ANIME") := by
  refine ⟨⟨?_, rfl⟩, ?_, ?_, rfl⟩
  · simp [ExternalAPIService.searchRoute, hq]
  · simp [ExternalAPIService.searchRoute, hq]
  · simp [ExternalAPIService.searchRoute, hq]

/-- Concrete instance of the C10 theorem. -/
theorem claim_C10_witness :
    (ExternalAPIService.searchRoute "naruto" "Anime" (some "tmdb")
        (fun _ => none) none = .tmdb "naruto" "Series"
      ∧ TMDBClient.endpointOf (some "Series") = "/search/tv")
    ∧ (ExternalAPIService.searchRoute "naruto" "Movie" (some "anilist")
        (fun _ => none) none = .anilist "naruto" "Anime"
      ∧ ExternalAPIService.searchRoute "naruto" "Series" (some "anilist")
        (fun _ => none) none = .anilist "naruto" "Anime"
      ∧ AniListClient.anilistTypeOf (some "Anime") = "ANIME") :=
  claim_C10 "naruto" (fun _ => none) none (by decide)

/-! ## Claim C7 -/

/-- Claim C7: the rate governor guarantees a gap of at least the
0.7-second minimum interval between consecutive AniList requests — for any
clock reading `now`, any recorded `last` timestamp, and any non-negative
post-sleep delta, the newly recorded timestamp (the earliest moment the
next outbound request is issued) is at least `last + 0.7`. -/
theorem claim_C7 (now last postSleepDelta : ℚ) (hd : 0 ≤ postSleepDelta) :
    ANILIST_MIN_INTERVAL = 7 / 10
    ∧ ANILIST_MIN_INTERVAL
        ≤ AniListClient.rateLimitTimestamp now last postSleepDelta - last := by
  refine ⟨rfl, ?_⟩
  unfold AniListClient.rateLimitTimestamp AniListClient.rateLimitSleep
  by_cases h : now - last < ANILIST_MIN_INTERVAL
  · rw [if_pos h]
    linarith
  · rw [if_neg h]
    have := not_lt.mp h
    linarith

/-- Concrete instance of the C7 theorem: the previous request was recorded
0.2 seconds ago, and the governor still enforces the 0.7-second spacing. -/
theorem claim_C7_witness :
    ANILIST_MIN_INTERVAL = 7 / 10
    ∧ ANILIST_MIN_INTERVAL
        ≤ AniListClient.rateLimitTimestamp 10 (98 / 10) 0 - 98 / 10 :=
  claim_C7 10 (98 / 10) 0 (by norm_num)

/-! ## Claim C9 -/

/-- Claim C9: an external id the Python `int()` cannot parse (stated over
ASCII ids, where the embedded parser agrees with CPython) makes the
AniList `get_details` return null before issuing any network request. -/
theorem claim_C9 (external_id : String)
    (respond : Int → Option AniListDetailMedia)
    (_hascii : ∀ c ∈ external_id.data, c.toNat ≤ 127)
    (hp : pythonParseInt external_id = none) :
    AniListClient.get_details external_id respond = none
    ∧ AniListClient.detailRequests external_id = [] := by
  constructor
  · simp [AniListClient.get_details, hp]
  · simp [AniListClient.detailRequests, hp]

/-- Concrete instance of the C9 theorem at the unparsable id `"12abc"`. -/
theorem claim_C9_witness :
    AniListClient.get_details "12abc" (fun _ => none) = none
    ∧ AniListClient.detailRequests "12abc" = [] :=
  claim_C9 "12abc" (fun _ => none) (by decide) (by decide)

/-! ## Claim C8 -/

/-- Claim C8: when every embedded season of a TVMaze details payload has
`episodeOrder` null, the adapter takes the manual-count fallback (fetching
the full episode listing and aggregating counts by season number), and the
per-season episode counts on the resulting record (null read as 0) sum to
exactly the total exposed as the record's `episodes` field (null read as
0, which only occurs when the total is 0). -/
theorem claim_C8 (sh : TVMazeShowDetail) (eps : List TVMazeEpisode)
    (d : DetailRecord)
    (hne : sh.seasons ≠ [])
    (hall : ∀ s ∈ sh.seasons, s.episodeOrder = none)
    (heq : TVMazeAPI.get_details (some sh) (some eps) = some d) :
    TVMazeAPI.needsManualCount sh = true
    ∧ (d.seasons.map (fun s => s.episodes.getD 0)).sum = d.episodes.getD 0 := by
  have hman : TVMazeAPI.needsManualCount sh = true := by
    obtain ⟨s0, hs0⟩ := List.exists_mem_of_ne_nil sh.seasons hne
    simp only [TVMazeAPI.needsManualCount, List.any_eq_true]
    exact ⟨s0, hs0, by simp [hall s0 hs0]⟩
  refine ⟨hman, ?_⟩
  injection heq with h
  subst h
  simp only [hman, if_true, Option.getD_some, List.map_map]
  have hterm : ∀ s ∈ sh.seasons, 0 ≤ (TVMazeAPI.seasonEpisodes eps s).getD 0 := by
    intro s hs
    simp only [TVMazeAPI.seasonEpisodes, hall s hs]
    exact episodeCountFor_nonneg eps s.number
  have hsum : 0 ≤ (sh.seasons.map
      (fun s => (TVMazeAPI.seasonEpisodes eps s).getD 0)).sum := by
    refine List.sum_nonneg ?_
    intro x hx
    obtain ⟨s, hs, rfl⟩ := List.mem_map.mp hx
    exact hterm s hs
  rw [foldl_episode_sum (fun s => TVMazeAPI.seasonEpisodes eps s) sh.seasons 0]
  simp only [zero_add]
  have hcomp : ((fun (s : SeasonEntry) => s.episodes.getD 0) ∘ fun s =>
      ({ number := s.number, episodes := TVMazeAPI.seasonEpisodes eps s,
         duration := sh.averageRuntime,
         releaseDate := s.premiereDate } : SeasonEntry))
      = fun s => (TVMazeAPI.seasonEpisodes eps s).getD 0 := rfl
  rw [hcomp]
  by_cases hT : 0 < (sh.seasons.map
      (fun s => (TVMazeAPI.seasonEpisodes eps s).getD 0)).sum
  · rw [if_pos hT, Option.getD_some]
  · rw [if_neg hT]
    simp only [Option.getD_none]
    omega

def c8Show : TVMazeShowDetail :=
  ⟨100, some "S", some 30, [⟨some 1, none, none⟩, ⟨some 2, none, none⟩]⟩
def c8Eps : List TVMazeEpisode := [⟨some 1⟩, ⟨some 1⟩, ⟨some 2⟩]
def c8Detail : DetailRecord :=
  ⟨"100", "tvmaze", some "S", [], some 3, some 2,
   [⟨some 1, some 2, some 30, none⟩, ⟨some 2, some 1, some 30, none⟩]⟩

/-- Concrete instance of the C8 theorem: two seasons with null
`episodeOrder`, a three-episode listing, aggregated to 2 + 1 = 3. -/
theorem claim_C8_witness :
    TVMazeAPI.needsManualCount c8Show = true
    ∧ (c8Detail.seasons.map (fun s => s.episodes.getD 0)).sum
        = c8Detail.episodes.getD 0 :=
  claim_C8 c8Show c8Eps c8Detail (by decide) (by decide) (by decide)
